import Mathlib

/-!
# systemcalls.c : do_system, do_exec, do_exec_redirect

A shallow embedding of the three process helpers of `systemcalls.c`.

Every library call of the source becomes one `Call` event, recorded in program
order together with its arguments and its return value.  The results of the
calls are supplied by an `OS` record (one field per call whose result the code
inspects), so a theorem quantified over `OS` covers every outcome of the
operating-system calls.  `fork` returns in two processes; a run of a function
describes the process that observed `os.forkRet` (`0`: the child, `-1`: the
failed spawn in the caller, anything else: the parent).

The descriptor table of the running process is modelled explicitly with the
POSIX rules for `open` (lowest free descriptor), `dup2` (no-op when both
descriptors are equal) and `close`.
-/

namespace Systemcalls

/-! ## Platform constants and macros (Linux / glibc headers) -/

/-- A `char *`: `none` is the null pointer. -/
abbrev CStr := Option String

/-- Largest value of the C type `int`. -/
def INT_MAX : Int := 2147483647

/-- Constant `EXIT_FAILURE` of `<stdlib.h>`. -/
def EXIT_FAILURE : Int := 1

/-- Constant `STDOUT_FILENO` of `<unistd.h>`. -/
def STDOUT_FILENO : Int := 1

/-- Flag `O_WRONLY` of `<fcntl.h>`. -/
def O_WRONLY : Nat := 0o1

/-- Flag `O_CREAT` of `<fcntl.h>`. -/
def O_CREAT : Nat := 0o100

/-- Flag `O_TRUNC` of `<fcntl.h>`. -/
def O_TRUNC : Nat := 0o1000

/-- Macro `WTERMSIG(status)` of `<sys/wait.h>`: `((status) & 0x7f)`. -/
def WTERMSIG (status : Int) : Int := Int.land status 0x7f

/-- Macro `WIFEXITED(status)` of `<sys/wait.h>`: `(WTERMSIG(status) == 0)`. -/
def WIFEXITED (status : Int) : Bool := WTERMSIG status == 0

/-- Macro `WEXITSTATUS(status)` of `<sys/wait.h>`: `(((status) & 0xff00) >> 8)`. -/
def WEXITSTATUS (status : Int) : Int := (Int.land status 0xff00) >>> 8

/-- Conversion to `signed char` (8 bits, wrapping around). -/
def toSignedChar (x : Int) : Int := (x + 128) % 256 - 128

/-- Macro `WIFSIGNALED(status)` of `<sys/wait.h>`: `(((signed char) (((status) & 0x7f) + 1) >> 1) > 0)`. -/
def WIFSIGNALED (status : Int) : Bool :=
  decide (0 < (toSignedChar (Int.land status 0x7f + 1)) >>> 1)

/-- Macro `W_EXITCODE(ret, sig)` of `<sys/wait.h>`: `((ret) << 8 | (sig))`. -/
def W_EXITCODE (ret sig : Int) : Int := Int.lor (ret <<< 8) sig

/-- The status a successful `waitpid` stores for a child that called
`exit(code)`: only the low eight bits of the code are kept. -/
def exitStatus (code : Int) : Int := W_EXITCODE (Int.land code 0xff) 0

/-- The status a successful `waitpid` stores for a child killed by signal
`sig` (no core dump). -/
def signalStatus (sig : Int) : Int := W_EXITCODE 0 sig

/-! ## Descriptor table -/

/-- An open file description, as created by `open(path, flags, mode)`. -/
structure OpenFile where
  path : String
  flags : Nat
  mode : Nat
deriving DecidableEq

/-- The descriptor table of a process: entry `n` is the file descriptor `n`
refers to, `none` when descriptor `n` is closed. Descriptors past the end of
the list are closed. -/
abbrev FdTable := List (Option OpenFile)

/-- The lowest descriptor number that is not open. -/
def lowestFree : FdTable → Nat
  | [] => 0
  | none :: _ => 0
  | some _ :: t => lowestFree t + 1

/-- What descriptor `fd` refers to. -/
def getFd (t : FdTable) (fd : Int) : Option OpenFile :=
  if fd < 0 then none else t.getD fd.toNat none

/-- Make descriptor `n` refer to `v`. -/
def setFd : FdTable → Nat → Option OpenFile → FdTable
  | [], 0, v => [v]
  | [], n + 1, v => none :: setFd [] n v
  | _ :: t, 0, v => v :: t
  | x :: t, n + 1, v => x :: setFd t n v

/-! ## Operating-system outcomes and calls -/

/-- The outcome of every operating-system call a run can make, and the
descriptor table of the process at the time of the call. -/
structure OS where
  /-- The value `system` returns. -/
  systemRet : Int
  /-- The value `fork` returns in the process under consideration. -/
  forkRet : Int
  /-- Whether `execv` replaces the image (it then does not return). -/
  execvOk : Bool
  /-- The value `waitpid` returns. -/
  waitRet : Int
  /-- The status `waitpid` stores. -/
  waitStatus : Int
  /-- Whether `open` can open the file (when the path is not null). -/
  openOk : Bool
  /-- Whether `dup2` succeeds (when its first descriptor is open). -/
  dup2Ok : Bool
  /-- The descriptor table at entry. -/
  fds : FdTable

/-- A library call made by the code, with its arguments and (last) its result. -/
inductive Call where
  | system (cmd : String) (ret : Int)
  | fork (ret : Int)
  | perror (msg : String)
  | execv (path : CStr) (argv : List CStr)
  | exit (code : Int)
  | waitpid (pid : Int) (options : Int) (ret : Int)
  | open_ (path : CStr) (flags : Nat) (mode : Nat) (ret : Int)
  | dup2 (oldfd : Int) (newfd : Int) (ret : Int)
  | close (fd : Int)
deriving DecidableEq

/-- How the run of a function ends in the process under consideration. -/
inductive Outcome where
  /-- The function returned this boolean to its caller. -/
  | returned (b : Bool)
  /-- The process terminated through `exit(code)`. -/
  | exited (code : Int)
  /-- The process image was replaced by `execv`. -/
  | replaced
deriving DecidableEq

/-- A run: the calls made in order, how the run ended, and the descriptor
table of the process at that point (for `replaced`: the table the new image
starts with; no call after `execv` changes the table). -/
structure Run where
  trace : List Call
  outcome : Outcome
  fds : FdTable
deriving DecidableEq

/-- POSIX `open`: a null path or a refused open gives `-1`; otherwise the lowest
free descriptor is allocated for a new open file description. -/
def sys_open (os : OS) (t : FdTable) (path : CStr) (flags mode : Nat) : Int × FdTable :=
  match path with
  | none => (-1, t)
  | some p =>
    if os.openOk then
      (Int.ofNat (lowestFree t), setFd t (lowestFree t) (some ⟨p, flags, mode⟩))
    else (-1, t)

/-- POSIX `dup2(oldfd, newfd)`: fails with `-1` when `oldfd` is not open (or
the kernel refuses); when `oldfd = newfd` it returns `newfd` and does nothing;
otherwise `newfd` is made to refer to the file of `oldfd`. -/
def sys_dup2 (os : OS) (t : FdTable) (oldfd newfd : Int) : Int × FdTable :=
  match getFd t oldfd with
  | none => (-1, t)
  | some f =>
    if !os.dup2Ok || newfd < 0 then (-1, t)
    else if oldfd = newfd then (newfd, t)
    else (newfd, setFd t newfd.toNat (some f))

/-- POSIX `close(fd)`: descriptor `fd` no longer refers to anything. -/
def sys_close (t : FdTable) (fd : Int) : FdTable :=
  if fd < 0 then t else
    match getFd t fd with
    | none => t
    | some _ => setFd t fd.toNat none

/-! ## The argument vector -/

/-- The loop `for (int i = 0; i < count; i++) command[i] = va_arg(args, char *);`
from index `i` with `n` iterations left. A slot of the array is `none` while
it holds no value yet. Reading a variadic argument that was not passed is
undefined: the result is `none`. -/
def fillCommand : Nat → Nat → List CStr → List (Option CStr) → Option (List (Option CStr))
  | 0, _, _, command => some command
  | n + 1, i, va, command =>
    match va with
    | [] => none
    | a :: rest => fillCommand n (i + 1) rest (command.set i (some a))

/-- Read a whole array; `none` if some slot was never written. -/
def readArray : List (Option CStr) → Option (List CStr)
  | [] => some []
  | none :: _ => none
  | some p :: t => (readArray t).map (fun l => p :: l)

/-- The prologue shared by the text of `do_exec` and `do_exec_redirect`:
`char *command[count + 1]`, the `va_arg` loop and `command[count] = NULL`.
The result is `none` when the behaviour is undefined in C: `count + 1` is not
a positive `int`, or fewer than `count` variadic arguments were passed. -/
def buildCommand (count : Int) (va : List CStr) : Option (List CStr) :=
  if count < 0 ∨ INT_MAX < count + 1 then none
  else
    match fillCommand count.toNat 0 va (List.replicate (count + 1).toNat none) with
    | none => none
    | some command => readArray (command.set count.toNat (some none))

/-! ## The three functions -/

/-- Source `do_system`. -/
def do_system (os : OS) (cmd : CStr) : Run :=
  match cmd with
  | none => ⟨[], .returned false, os.fds⟩
  | some s =>
    let ret := os.systemRet
    ⟨[.system s ret], .returned (ret == 0), os.fds⟩

/-- Source `do_exec`. -/
def do_exec (os : OS) (count : Int) (va : List CStr) : Option Run :=
  match buildCommand count va with
  | none => none
  | some command =>
    let pid := os.forkRet
    if pid == -1 then
      some ⟨[.fork pid, .perror "fork failed"], .returned false, os.fds⟩
    else if pid == 0 then
      if os.execvOk then
        some ⟨[.fork pid, .execv (command.headD none) command], .replaced, os.fds⟩
      else
        some ⟨[.fork pid, .execv (command.headD none) command, .perror "execv failed",
               .exit EXIT_FAILURE], .exited EXIT_FAILURE, os.fds⟩
    else
      let status := os.waitStatus
      if os.waitRet == -1 then
        some ⟨[.fork pid, .waitpid pid 0 os.waitRet, .perror "waitpid failed"],
              .returned false, os.fds⟩
      else
        some ⟨[.fork pid, .waitpid pid 0 os.waitRet],
              .returned (WIFEXITED status && WEXITSTATUS status == 0), os.fds⟩

/-- Source `do_exec_redirect`. -/
def do_exec_redirect (os : OS) (outputfile : CStr) (count : Int) (va : List CStr) :
    Option Run :=
  match buildCommand count va with
  | none => none
  | some command =>
    let pid := os.forkRet
    if pid == -1 then
      some ⟨[.fork pid, .perror "fork failed"], .returned false, os.fds⟩
    else if pid == 0 then
      let flags := O_WRONLY ||| O_CREAT ||| O_TRUNC
      let o := sys_open os os.fds outputfile flags 0o644
      let fd := o.1
      if fd < 0 then
        some ⟨[.fork pid, .open_ outputfile flags 0o644 fd, .perror "open failed",
               .exit EXIT_FAILURE], .exited EXIT_FAILURE, o.2⟩
      else
        let d := sys_dup2 os o.2 fd STDOUT_FILENO
        if d.1 < 0 then
          some ⟨[.fork pid, .open_ outputfile flags 0o644 fd, .dup2 fd STDOUT_FILENO d.1,
                 .perror "dup2 failed", .close fd, .exit EXIT_FAILURE],
                .exited EXIT_FAILURE, sys_close d.2 fd⟩
        else
          let t := sys_close d.2 fd
          if os.execvOk then
            some ⟨[.fork pid, .open_ outputfile flags 0o644 fd, .dup2 fd STDOUT_FILENO d.1,
                   .close fd, .execv (command.headD none) command], .replaced, t⟩
          else
            some ⟨[.fork pid, .open_ outputfile flags 0o644 fd, .dup2 fd STDOUT_FILENO d.1,
                   .close fd, .execv (command.headD none) command, .perror "execv failed",
                   .exit EXIT_FAILURE], .exited EXIT_FAILURE, t⟩
    else
      let status := os.waitStatus
      if os.waitRet == -1 then
        some ⟨[.fork pid, .waitpid pid 0 os.waitRet, .perror "waitpid failed"],
              .returned false, os.fds⟩
      else
        some ⟨[.fork pid, .waitpid pid 0 os.waitRet],
              .returned (WIFEXITED status && WEXITSTATUS status == 0), os.fds⟩

/-! ## Vocabulary of the properties -/

/-- The calls whose behaviour C defines: `count` is a non-negative `int` with
`count + 1` representable, and at least `count` variadic arguments follow. -/
def DefinedCall (count : Int) (va : List CStr) : Prop :=
  0 ≤ count ∧ count < INT_MAX ∧ count ≤ (va.length : Int)

instance (count : Int) (va : List CStr) : Decidable (DefinedCall count va) := by
  unfold DefinedCall; infer_instance

/-- Following the words of the specification for the result of `run_exec`:
true iff the spawn succeeded, the wait call succeeded, the termination was a
normal exit and the exit code was exactly 0. -/
def specResult (spawn wait status : Int) : Bool :=
  decide (spawn ≠ -1 ∧ wait ≠ -1 ∧ WIFEXITED status = true ∧ WEXITSTATUS status = 0)

/-- The call is a `fork`. -/
def Call.isFork : Call → Bool
  | .fork _ => true
  | _ => false

/-- The call is a `waitpid`. -/
def Call.isWait : Call → Bool
  | .waitpid _ _ _ => true
  | _ => false

/-- The call is an `open`. -/
def Call.isOpen : Call → Bool
  | .open_ _ _ _ _ => true
  | _ => false

/-- The call is a `dup2`. -/
def Call.isDup2 : Call → Bool
  | .dup2 _ _ _ => true
  | _ => false

/-- The call is a `close`. -/
def Call.isClose : Call → Bool
  | .close _ => true
  | _ => false

/-- The call is an `execv`. -/
def Call.isExecv : Call → Bool
  | .execv _ _ => true
  | _ => false

/-- The call is a successful `waitpid` on process `pid`. -/
def Call.reaps (pid : Int) : Call → Bool
  | .waitpid p _ ret => p == pid && ret != -1
  | _ => false

/-- Process `pid` has been reaped by a successful wait on its own id. -/
def reapedBy (pid : Int) (trace : List Call) : Bool := trace.any (Call.reaps pid)

/-! ## Lemmas on the argument vector and the descriptor table -/

theorem readArray_map_some (l : List CStr) : readArray (l.map some) = some l := by
  induction l with
  | nil => rfl
  | cons a t ih => simp [readArray, ih]

theorem set_append_length {α : Type} (l : List α) (x y : α) (r : List α) (n : Nat)
    (hn : n = l.length) : (l ++ x :: r).set n y = l ++ y :: r := by
  subst hn
  induction l with
  | nil => rfl
  | cons a t ih => simp [ih]

theorem fillCommand_spec (n k : Nat) : ∀ (va pre : List CStr), n ≤ va.length →
    fillCommand n pre.length va (pre.map some ++ List.replicate (n + k) none)
      = some ((pre ++ va.take n).map some ++ List.replicate k none) := by
  induction n with
  | zero => intro va pre _; simp [fillCommand]
  | succ n ih =>
    intro va pre h
    cases va with
    | nil => simp at h
    | cons a rest =>
      have hlen : n ≤ rest.length := by simpa using h
      have hrep : List.replicate (n + 1 + k) (none : Option CStr)
          = none :: List.replicate (n + k) none := by
        rw [show n + 1 + k = (n + k) + 1 by omega, List.replicate_succ]
      have hset : (pre.map some ++ (none :: List.replicate (n + k) (none : Option CStr))).set
          pre.length (some a) = (pre ++ [a]).map some ++ List.replicate (n + k) none := by
        rw [set_append_length _ _ _ _ _ (by simp)]
        simp
      have := ih rest (pre ++ [a]) hlen
      simp only [List.length_append, List.length_singleton] at this
      simp only [fillCommand, hrep, hset, this]
      simp

theorem buildCommand_eq (count : Int) (va : List CStr) (h : DefinedCall count va) :
    buildCommand count va = some (va.take count.toNat ++ [none]) := by
  obtain ⟨h0, h1, h2⟩ := h
  obtain ⟨n, rfl⟩ := Int.eq_ofNat_of_zero_le h0
  have hn : n ≤ va.length := by exact_mod_cast h2
  have hguard : ¬ ((n : Int) < 0 ∨ INT_MAX < (n : Int) + 1) := by
    unfold INT_MAX at *; omega
  have hfill := fillCommand_spec n 1 va [] hn
  simp only [List.length_nil, List.map_nil, List.nil_append] at hfill
  have hsz : ((n : Int) + 1).toNat = n + 1 := by omega
  unfold buildCommand
  rw [if_neg hguard]
  simp only [Int.toNat_ofNat, hsz, hfill]
  have : (List.map some (List.take n va) ++ List.replicate 1 (none : Option CStr)).set n (some none)
      = (va.take n ++ [none]).map some := by
    rw [List.replicate_one, set_append_length _ _ _ _ _ (by simp [hn])]
    simp
  rw [this, readArray_map_some]


theorem getD_setFd_nil (n m : Nat) (v : Option OpenFile) :
    (setFd [] n v)[m]?.getD none = if m = n then v else none := by
  induction n generalizing m with
  | zero => cases m <;> simp [setFd]
  | succ n ih => cases m <;> simp [setFd, ih]

theorem getD_setFd (t : FdTable) (n m : Nat) (v : Option OpenFile) :
    (setFd t n v)[m]?.getD none = if m = n then v else t[m]?.getD none := by
  induction t generalizing n m with
  | nil => simpa using getD_setFd_nil n m v
  | cons x t ih =>
    cases n with
    | zero => cases m <;> simp [setFd]
    | succ n => cases m <;> simp [setFd, ih]

theorem getFd_setFd (t : FdTable) (n : Nat) (fd : Int) (v : Option OpenFile) :
    getFd (setFd t n v) fd = if fd = (n : Int) then v else getFd t fd := by
  unfold getFd
  by_cases hneg : fd < 0
  · have : fd ≠ (n : Int) := by omega
    simp [hneg, this]
  · obtain ⟨m, rfl⟩ := Int.eq_ofNat_of_zero_le (not_lt.mp hneg)
    have hm : ¬ ((m : Int) < 0) := by omega
    simp [hm, getD_setFd]

theorem getFd_sys_close (t : FdTable) (fd : Int) : getFd (sys_close t fd) fd = none := by
  unfold sys_close
  by_cases hneg : fd < 0
  · simp [hneg, getFd]
  · rw [if_neg hneg]
    cases h : getFd t fd with
    | none => simpa using h
    | some f =>
      obtain ⟨m, rfl⟩ := Int.eq_ofNat_of_zero_le (not_lt.mp hneg)
      simp [getFd_setFd]

theorem getFd_sys_close_ne (t : FdTable) (fd fd2 : Int) (h : fd2 ≠ fd) :
    getFd (sys_close t fd) fd2 = getFd t fd2 := by
  unfold sys_close
  by_cases hneg : fd < 0
  · simp [hneg]
  · rw [if_neg hneg]
    cases hg : getFd t fd with
    | none => rfl
    | some f =>
      obtain ⟨m, rfl⟩ := Int.eq_ofNat_of_zero_le (not_lt.mp hneg)
      simp [getFd_setFd, h]


/-! ## do_system -/

/-- C2: for a null command string `do_system` returns false and makes no call
at all: `system` is never invoked, so no process is spawned. -/
theorem do_system_null (os : OS) :
    do_system os none = ⟨[], .returned false, os.fds⟩ ∧
    (do_system os none).outcome = .returned false ∧
    (do_system os none).trace = [] ∧
    (∀ cmd ret, Call.system cmd ret ∉ (do_system os none).trace) := by
  simp [do_system]

/-- C3: for every non-null command string (the empty string included)
`do_system` passes the string unchanged to `system` exactly once, makes no
other call, and returns true if and only if the status `system` reports is
zero; every other status gives false. -/
theorem do_system_present (os : OS) (s : String) :
    (do_system os (some s)).trace = [Call.system s os.systemRet] ∧
    ((do_system os (some s)).outcome = .returned true ↔ os.systemRet = 0) ∧
    (os.systemRet ≠ 0 → (do_system os (some s)).outcome = .returned false) ∧
    (∃ b, (do_system os (some s)).outcome = .returned b) := by
  simp [do_system]

/-! ## The parent side of do_exec and do_exec_redirect -/

theorem not_WIFEXITED_of_WIFSIGNALED (status : Int) (h : WIFSIGNALED status = true) :
    WIFEXITED status = false := by
  by_contra hne
  have he : Int.land status 0x7f = 0 := by
    simpa [WIFEXITED, WTERMSIG] using hne
  have : WIFSIGNALED status = false := by
    unfold WIFSIGNALED
    rw [he]
    decide
  rw [this] at h
  exact Bool.noConfusion h

/-- C1: whenever the spawn succeeds, `do_exec` returns to its caller, and the
boolean it returns is true if and only if `waitpid` did not fail, the status is
a normal exit and its exit code is 0; it is false when `waitpid` fails, when
the status says the child was killed by a signal, and when the exit code is
not 0. -/
theorem do_exec_result (os : OS) (count : Int) (va : List CStr)
    (hdef : DefinedCall count va) (hspawn : os.forkRet ≠ -1) (hparent : os.forkRet ≠ 0) :
    ∃ r b, do_exec os count va = some r ∧ r.outcome = .returned b ∧
      (b = true ↔
        (os.waitRet ≠ -1 ∧ WIFEXITED os.waitStatus = true ∧ WEXITSTATUS os.waitStatus = 0)) ∧
      (os.waitRet = -1 → b = false) ∧
      (WIFSIGNALED os.waitStatus = true → b = false) ∧
      (WEXITSTATUS os.waitStatus ≠ 0 → b = false) := by
  unfold do_exec
  rw [buildCommand_eq count va hdef]
  by_cases hw : os.waitRet = -1
  · simp [hspawn, hparent, hw]
  · simp only [beq_iff_eq, hspawn, hparent, hw, if_false]
    refine ⟨_, _, rfl, rfl, ?_, ?_, ?_, ?_⟩
    · simp [hw]
    · simp
    · intro h; simp [not_WIFEXITED_of_WIFSIGNALED _ h]
    · intro h; simp [h]

theorem do_exec_result_witness :
    ∃ r b, do_exec ⟨0, 7, true, 7, 0, true, true, []⟩ 1 [some "/bin/true"] = some r ∧
      r.outcome = .returned b ∧
      (b = true ↔ ((7 : Int) ≠ -1 ∧ WIFEXITED 0 = true ∧ WEXITSTATUS 0 = 0)) ∧
      ((7 : Int) = -1 → b = false) ∧
      (WIFSIGNALED 0 = true → b = false) ∧
      (WEXITSTATUS 0 ≠ 0 → b = false) :=
  do_exec_result ⟨0, 7, true, 7, 0, true, true, []⟩ 1 [some "/bin/true"]
    (by decide) (by decide) (by decide)


/-- C4: in the calling process (failed spawn or parent), for every output
path and every argument list, `do_exec_redirect` and `do_exec` return the same
boolean whenever the spawn result, the wait result and the status agree: both
return the value the specification gives for (spawn, wait, status), and they
make the same calls. -/
theorem do_exec_redirect_same_result (os os2 : OS) (outputfile : CStr) (count : Int)
    (va : List CStr) (hdef : DefinedCall count va) (hparent : os.forkRet ≠ 0)
    (hf : os2.forkRet = os.forkRet) (hw : os2.waitRet = os.waitRet)
    (hs : os2.waitStatus = os.waitStatus) :
    ∃ r1 r2, do_exec_redirect os outputfile count va = some r1 ∧
      do_exec os2 count va = some r2 ∧
      r1.outcome = .returned (specResult os.forkRet os.waitRet os.waitStatus) ∧
      r2.outcome = .returned (specResult os.forkRet os.waitRet os.waitStatus) ∧
      r1.outcome = r2.outcome ∧ r1.trace = r2.trace := by
  unfold do_exec_redirect do_exec
  rw [buildCommand_eq count va hdef, hf, hw, hs]
  by_cases hfork : os.forkRet = -1
  · simp [hfork, specResult]
  · by_cases hwait : os.waitRet = -1
    · simp [hfork, hparent, hwait, specResult]
    · by_cases he : WEXITSTATUS os.waitStatus = 0 <;>
        simp [hfork, hparent, hwait, specResult, he]

theorem do_exec_redirect_same_result_witness :
    ∃ r1 r2, do_exec_redirect ⟨0, 7, true, 7, 256, true, true, []⟩ (some "/tmp/out.txt") 1
        [some "/bin/false"] = some r1 ∧
      do_exec ⟨1, 7, false, 7, 256, false, false, [none]⟩ 1 [some "/bin/false"] = some r2 ∧
      r1.outcome = .returned (specResult 7 7 256) ∧
      r2.outcome = .returned (specResult 7 7 256) ∧
      r1.outcome = r2.outcome ∧ r1.trace = r2.trace :=
  do_exec_redirect_same_result ⟨0, 7, true, 7, 256, true, true, []⟩
    ⟨1, 7, false, 7, 256, false, false, [none]⟩ (some "/tmp/out.txt") 1 [some "/bin/false"]
    (by decide) (by decide) rfl rfl rfl

/-- C5: when `fork` fails, `do_exec` and `do_exec_redirect` return false after
the calls `fork` and `perror` only: no `waitpid`, no `open`, no `dup2` and no
`execv` is made, and the descriptor table is untouched. -/
theorem fork_failure_returns_false (os : OS) (outputfile : CStr) (count : Int)
    (va : List CStr) (hdef : DefinedCall count va) (hfork : os.forkRet = -1) :
    ∃ r1 r2, do_exec os count va = some r1 ∧
      do_exec_redirect os outputfile count va = some r2 ∧
      r1.outcome = .returned false ∧ r2.outcome = .returned false ∧
      r1.trace = [.fork (-1), .perror "fork failed"] ∧
      r2.trace = [.fork (-1), .perror "fork failed"] ∧
      r1.fds = os.fds ∧ r2.fds = os.fds ∧
      (∀ c ∈ r1.trace ++ r2.trace,
        c.isWait = false ∧ c.isOpen = false ∧ c.isDup2 = false ∧ c.isExecv = false) := by
  unfold do_exec_redirect do_exec
  rw [buildCommand_eq count va hdef]
  simp [hfork, Call.isWait, Call.isOpen, Call.isDup2, Call.isExecv]

theorem fork_failure_returns_false_witness :
    ∃ r1 r2, do_exec ⟨0, -1, true, 7, 0, true, true, []⟩ 1 [some "/bin/true"] = some r1 ∧
      do_exec_redirect ⟨0, -1, true, 7, 0, true, true, []⟩ (some "/tmp/out.txt") 1
        [some "/bin/true"] = some r2 ∧
      r1.outcome = .returned false ∧ r2.outcome = .returned false ∧
      r1.trace = [.fork (-1), .perror "fork failed"] ∧
      r2.trace = [.fork (-1), .perror "fork failed"] ∧
      r1.fds = [] ∧ r2.fds = [] ∧
      (∀ c ∈ r1.trace ++ r2.trace,
        c.isWait = false ∧ c.isOpen = false ∧ c.isDup2 = false ∧ c.isExecv = false) :=
  fork_failure_returns_false ⟨0, -1, true, 7, 0, true, true, []⟩ (some "/tmp/out.txt") 1
    [some "/bin/true"] (by decide) rfl


/-! ## The child side -/

theorem sys_open_null (os : OS) (t : FdTable) (flags mode : Nat) :
    sys_open os t none flags mode = (-1, t) := rfl

theorem sys_open_refused (os : OS) (t : FdTable) (p : String) (flags mode : Nat)
    (h : os.openOk = false) : sys_open os t (some p) flags mode = (-1, t) := by
  simp [sys_open, h]

theorem sys_open_ok (os : OS) (t : FdTable) (p : String) (flags mode : Nat)
    (h : os.openOk = true) :
    sys_open os t (some p) flags mode
      = ((lowestFree t : Int), setFd t (lowestFree t) (some ⟨p, flags, mode⟩)) := by
  simp [sys_open, h]

theorem sys_dup2_refused (os : OS) (t : FdTable) (n : Nat) (f : OpenFile)
    (h : os.dup2Ok = false) :
    sys_dup2 os (setFd t n (some f)) (n : Int) STDOUT_FILENO = (-1, setFd t n (some f)) := by
  simp [sys_dup2, getFd_setFd, h]

theorem sys_dup2_ok (os : OS) (t : FdTable) (n : Nat) (f : OpenFile)
    (h : os.dup2Ok = true) :
    sys_dup2 os (setFd t n (some f)) (n : Int) STDOUT_FILENO
      = (1, if (n : Int) = 1 then setFd t n (some f) else setFd (setFd t n (some f)) 1 (some f)) := by
  simp only [sys_dup2, getFd_setFd, if_true, h, STDOUT_FILENO]
  by_cases h1 : (n : Int) = 1 <;> simp [h1]

theorem parent_sees_failure (parent : OS) (outputfile : CStr) (count : Int) (va : List CStr)
    (hdef : DefinedCall count va) (hp1 : parent.forkRet ≠ -1) (hp0 : parent.forkRet ≠ 0)
    (hst : parent.waitStatus = exitStatus EXIT_FAILURE) :
    ∃ q1 q2, do_exec parent count va = some q1 ∧
      do_exec_redirect parent outputfile count va = some q2 ∧
      q1.outcome = .returned false ∧ q2.outcome = .returned false := by
  have hs : WEXITSTATUS (exitStatus EXIT_FAILURE) = 1 := by decide
  unfold do_exec_redirect do_exec
  rw [buildCommand_eq count va hdef, hst]
  by_cases hw : parent.waitRet = -1 <;> simp [hp1, hp0, hw, hs]


theorem do_exec_child (os : OS) (count : Int) (va : List CStr)
    (hdef : DefinedCall count va) (hchild : os.forkRet = 0) :
    do_exec os count va = some
      (if os.execvOk then
        ⟨[.fork 0, .execv ((va.take count.toNat ++ [none]).headD none)
            (va.take count.toNat ++ [none])], .replaced, os.fds⟩
      else
        ⟨[.fork 0, .execv ((va.take count.toNat ++ [none]).headD none)
            (va.take count.toNat ++ [none]), .perror "execv failed", .exit EXIT_FAILURE],
          .exited EXIT_FAILURE, os.fds⟩) := by
  unfold do_exec
  rw [buildCommand_eq count va hdef]
  cases h : os.execvOk <;> simp [hchild, h]

theorem do_exec_redirect_child_open_failed (os : OS) (outputfile : CStr) (count : Int)
    (va : List CStr) (hdef : DefinedCall count va) (hchild : os.forkRet = 0)
    (hopen : outputfile = none ∨ os.openOk = false) :
    do_exec_redirect os outputfile count va = some
      ⟨[.fork 0, .open_ outputfile (O_WRONLY ||| O_CREAT ||| O_TRUNC) 0o644 (-1),
        .perror "open failed", .exit EXIT_FAILURE], .exited EXIT_FAILURE, os.fds⟩ := by
  have ho : sys_open os os.fds outputfile (O_WRONLY ||| O_CREAT ||| O_TRUNC) 0o644
      = (-1, os.fds) := by
    cases outputfile with
    | none => rfl
    | some p =>
      rcases hopen with h | h
      · exact absurd h (by simp)
      · exact sys_open_refused _ _ _ _ _ h
  unfold do_exec_redirect
  rw [buildCommand_eq count va hdef]
  simp [hchild, ho]

theorem do_exec_redirect_child_dup2_failed (os : OS) (p : String) (count : Int)
    (va : List CStr) (hdef : DefinedCall count va) (hchild : os.forkRet = 0)
    (hopen : os.openOk = true) (hdup : os.dup2Ok = false) :
    do_exec_redirect os (some p) count va = some
      ⟨[.fork 0, .open_ (some p) (O_WRONLY ||| O_CREAT ||| O_TRUNC) 0o644 (lowestFree os.fds),
        .dup2 (lowestFree os.fds) STDOUT_FILENO (-1), .perror "dup2 failed",
        .close (lowestFree os.fds), .exit EXIT_FAILURE], .exited EXIT_FAILURE,
        sys_close (setFd os.fds (lowestFree os.fds)
          (some ⟨p, O_WRONLY ||| O_CREAT ||| O_TRUNC, 0o644⟩)) (lowestFree os.fds)⟩ := by
  have hne : ¬ ((lowestFree os.fds : Int) < 0) := by omega
  unfold do_exec_redirect
  rw [buildCommand_eq count va hdef]
  simp only [sys_open_ok _ _ _ _ _ hopen, sys_dup2_refused _ _ _ _ hdup, hchild, hne]
  simp

theorem do_exec_redirect_child_setup_ok (os : OS) (p : String) (count : Int)
    (va : List CStr) (hdef : DefinedCall count va) (hchild : os.forkRet = 0)
    (hopen : os.openOk = true) (hdup : os.dup2Ok = true) :
    do_exec_redirect os (some p) count va = some
      ⟨[.fork 0, .open_ (some p) (O_WRONLY ||| O_CREAT ||| O_TRUNC) 0o644 (lowestFree os.fds),
        .dup2 (lowestFree os.fds) STDOUT_FILENO 1, .close (lowestFree os.fds),
        .execv ((va.take count.toNat ++ [none]).headD none) (va.take count.toNat ++ [none])]
        ++ (if os.execvOk then [] else [.perror "execv failed", .exit EXIT_FAILURE]),
        if os.execvOk then .replaced else .exited EXIT_FAILURE,
        sys_close (sys_dup2 os (setFd os.fds (lowestFree os.fds)
          (some ⟨p, O_WRONLY ||| O_CREAT ||| O_TRUNC, 0o644⟩)) (lowestFree os.fds)
          STDOUT_FILENO).2 (lowestFree os.fds)⟩ := by
  have hne : ¬ ((lowestFree os.fds : Int) < 0) := by omega
  have hd := sys_dup2_ok os os.fds (lowestFree os.fds)
    ⟨p, O_WRONLY ||| O_CREAT ||| O_TRUNC, 0o644⟩ hdup
  have hd1 : (sys_dup2 os (setFd os.fds (lowestFree os.fds)
      (some ⟨p, O_WRONLY ||| O_CREAT ||| O_TRUNC, 0o644⟩)) (lowestFree os.fds)
      STDOUT_FILENO).1 = 1 := by rw [hd]
  unfold do_exec_redirect
  rw [buildCommand_eq count va hdef]
  simp only [sys_open_ok _ _ _ _ _ hopen, hchild, hne, hd1]
  cases h : os.execvOk <;> simp

theorem do_exec_parent (os : OS) (count : Int) (va : List CStr)
    (hdef : DefinedCall count va) (hp1 : os.forkRet ≠ -1) (hp0 : os.forkRet ≠ 0) :
    do_exec os count va = some
      ⟨[.fork os.forkRet, .waitpid os.forkRet 0 os.waitRet]
        ++ (if os.waitRet = -1 then [.perror "waitpid failed"] else []),
        .returned (specResult os.forkRet os.waitRet os.waitStatus), os.fds⟩ := by
  unfold do_exec
  rw [buildCommand_eq count va hdef]
  by_cases hw : os.waitRet = -1
  · simp [hp1, hp0, hw, specResult]
  · by_cases he : WEXITSTATUS os.waitStatus = 0 <;> simp [hp1, hp0, hw, specResult, he]

theorem do_exec_redirect_parent (os : OS) (outputfile : CStr) (count : Int) (va : List CStr)
    (hdef : DefinedCall count va) (hp1 : os.forkRet ≠ -1) (hp0 : os.forkRet ≠ 0) :
    do_exec_redirect os outputfile count va = some
      ⟨[.fork os.forkRet, .waitpid os.forkRet 0 os.waitRet]
        ++ (if os.waitRet = -1 then [.perror "waitpid failed"] else []),
        .returned (specResult os.forkRet os.waitRet os.waitStatus), os.fds⟩ := by
  unfold do_exec_redirect
  rw [buildCommand_eq count va hdef]
  by_cases hw : os.waitRet = -1
  · simp [hp1, hp0, hw, specResult]
  · by_cases he : WEXITSTATUS os.waitStatus = 0 <;> simp [hp1, hp0, hw, specResult, he]

/-- C6: when `execv` fails in the child, the only calls the child makes after
it are `perror` and `exit(EXIT_FAILURE)` with a non-zero code: the child run
ends in `exit`, never returns a value to the caller and contains no `waitpid`.
This holds for `do_exec`, and for `do_exec_redirect` once its open and dup2
succeeded. A parent that observes this exit status returns false. -/
theorem execv_failure_exits_child (os parent : OS) (p : String) (count : Int) (va : List CStr)
    (hdef : DefinedCall count va) (hchild : os.forkRet = 0) (hexec : os.execvOk = false)
    (hopen : os.openOk = true) (hdup : os.dup2Ok = true)
    (hp1 : parent.forkRet ≠ -1) (hp0 : parent.forkRet ≠ 0)
    (hst : parent.waitStatus = exitStatus EXIT_FAILURE) :
    ∃ r1 r2 pre path argv, do_exec os count va = some r1 ∧
      do_exec_redirect os (some p) count va = some r2 ∧
      r1.trace = [.fork 0, .execv path argv, .perror "execv failed", .exit EXIT_FAILURE] ∧
      r2.trace = pre ++ [.execv path argv, .perror "execv failed", .exit EXIT_FAILURE] ∧
      r1.outcome = .exited EXIT_FAILURE ∧ r2.outcome = .exited EXIT_FAILURE ∧
      EXIT_FAILURE ≠ 0 ∧ WEXITSTATUS (exitStatus EXIT_FAILURE) ≠ 0 ∧
      (∀ c ∈ r1.trace ++ r2.trace, c.isWait = false) ∧
      (∀ c ∈ pre, c.isExecv = false) ∧
      ∃ q1 q2, do_exec parent count va = some q1 ∧
        do_exec_redirect parent (some p) count va = some q2 ∧
        q1.outcome = .returned false ∧ q2.outcome = .returned false := by
  have hpar := parent_sees_failure parent (some p) count va hdef hp1 hp0 hst
  have h1 := do_exec_child os count va hdef hchild
  have h2 := do_exec_redirect_child_setup_ok os p count va hdef hchild hopen hdup
  simp only [hexec, Bool.false_eq_true, if_false] at h1 h2
  refine ⟨_, _, [.fork 0, .open_ (some p) (O_WRONLY ||| O_CREAT ||| O_TRUNC) 0o644
    (lowestFree os.fds), .dup2 (lowestFree os.fds) STDOUT_FILENO 1, .close (lowestFree os.fds)],
    (va.take count.toNat ++ [none]).headD none, va.take count.toNat ++ [none],
    h1, h2, rfl, ?_, rfl, rfl, by decide, by decide, ?_, ?_, hpar⟩
  · simp
  · simp [Call.isWait]
  · simp [Call.isExecv]

theorem execv_failure_exits_child_witness :
    ∃ r1 r2 pre path argv,
      do_exec ⟨0, 0, false, 0, 0, true, true, []⟩ 1 [some "/no/such"] = some r1 ∧
      do_exec_redirect ⟨0, 0, false, 0, 0, true, true, []⟩ (some "/tmp/out.txt") 1
        [some "/no/such"] = some r2 ∧
      r1.trace = [.fork 0, .execv path argv, .perror "execv failed", .exit EXIT_FAILURE] ∧
      r2.trace = pre ++ [.execv path argv, .perror "execv failed", .exit EXIT_FAILURE] ∧
      r1.outcome = .exited EXIT_FAILURE ∧ r2.outcome = .exited EXIT_FAILURE ∧
      EXIT_FAILURE ≠ 0 ∧ WEXITSTATUS (exitStatus EXIT_FAILURE) ≠ 0 ∧
      (∀ c ∈ r1.trace ++ r2.trace, c.isWait = false) ∧
      (∀ c ∈ pre, c.isExecv = false) ∧
      ∃ q1 q2, do_exec ⟨0, 7, false, 7, 256, true, true, []⟩ 1 [some "/no/such"] = some q1 ∧
        do_exec_redirect ⟨0, 7, false, 7, 256, true, true, []⟩ (some "/tmp/out.txt") 1
          [some "/no/such"] = some q2 ∧
        q1.outcome = .returned false ∧ q2.outcome = .returned false :=
  execv_failure_exits_child ⟨0, 0, false, 0, 0, true, true, []⟩
    ⟨0, 7, false, 7, 256, true, true, []⟩ "/tmp/out.txt" 1 [some "/no/such"]
    (by decide) rfl rfl rfl rfl (by decide) (by decide) (by decide)


/-- C7: in the child of `do_exec_redirect`, `execv` is called exactly when the
open of the output file and the `dup2` onto standard output both succeeded. If
the open fails the child only reports and exits with `EXIT_FAILURE` (no `dup2`,
no `close`, no `execv`); if the `dup2` fails the child reports, closes the
opened descriptor and exits with `EXIT_FAILURE` (no `execv`). A parent that
observes this exit status returns false. -/
theorem redirect_setup_guards_execv (os parent : OS) (outputfile : CStr) (count : Int)
    (va : List CStr) (hdef : DefinedCall count va) (hchild : os.forkRet = 0)
    (hp1 : parent.forkRet ≠ -1) (hp0 : parent.forkRet ≠ 0)
    (hst : parent.waitStatus = exitStatus EXIT_FAILURE) :
    ∃ r, do_exec_redirect os outputfile count va = some r ∧
      ((∃ c ∈ r.trace, c.isExecv = true) ↔
        (outputfile ≠ none ∧ os.openOk = true ∧ os.dup2Ok = true)) ∧
      ((outputfile = none ∨ os.openOk = false) →
        r.trace = [.fork 0, .open_ outputfile (O_WRONLY ||| O_CREAT ||| O_TRUNC) 0o644 (-1),
          .perror "open failed", .exit EXIT_FAILURE] ∧
        r.outcome = .exited EXIT_FAILURE ∧ r.fds = os.fds) ∧
      (outputfile ≠ none → os.openOk = true → os.dup2Ok = false →
        r.trace = [.fork 0,
          .open_ outputfile (O_WRONLY ||| O_CREAT ||| O_TRUNC) 0o644 (lowestFree os.fds),
          .dup2 (lowestFree os.fds) STDOUT_FILENO (-1), .perror "dup2 failed",
          .close (lowestFree os.fds), .exit EXIT_FAILURE] ∧
        r.outcome = .exited EXIT_FAILURE ∧ getFd r.fds (lowestFree os.fds) = none) ∧
      EXIT_FAILURE ≠ 0 ∧
      ∃ q, do_exec_redirect parent outputfile count va = some q ∧
        q.outcome = .returned false := by
  have hpar : ∃ q, do_exec_redirect parent outputfile count va = some q ∧
      q.outcome = .returned false := by
    obtain ⟨_, q2, _, h2, _, h4⟩ := parent_sees_failure parent outputfile count va hdef hp1 hp0 hst
    exact ⟨q2, h2, h4⟩
  cases outputfile with
  | none =>
    refine ⟨_, do_exec_redirect_child_open_failed os none count va hdef hchild (Or.inl rfl),
      ?_, ?_, ?_, by decide, hpar⟩
    · simp [Call.isExecv]
    · intro _; exact ⟨rfl, rfl, rfl⟩
    · intro h; exact absurd rfl h
  | some p =>
    cases ho : os.openOk with
    | false =>
      refine ⟨_, do_exec_redirect_child_open_failed os (some p) count va hdef hchild (Or.inr ho),
        ?_, ?_, ?_, by decide, hpar⟩
      · simp [Call.isExecv]
      · intro _; exact ⟨rfl, rfl, rfl⟩
      · intro _ h; exact absurd h (by simp)
    | true =>
      cases hd : os.dup2Ok with
      | false =>
        refine ⟨_, do_exec_redirect_child_dup2_failed os p count va hdef hchild ho hd,
          ?_, ?_, ?_, by decide, hpar⟩
        · simp [Call.isExecv]
        · intro h; simp at h
        · intro _ _ _; exact ⟨rfl, rfl, getFd_sys_close _ _⟩
      | true =>
        refine ⟨_, do_exec_redirect_child_setup_ok os p count va hdef hchild ho hd,
          ?_, ?_, ?_, by decide, hpar⟩
        · simp [Call.isExecv]
        · intro h; simp at h
        · intro _ _ h; exact absurd h (by simp)

theorem redirect_setup_guards_execv_witness :
    ∃ r, do_exec_redirect ⟨0, 0, true, 0, 0, false, true, []⟩ (some "/no/dir/out") 1
        [some "/bin/true"] = some r ∧
      ((∃ c ∈ r.trace, c.isExecv = true) ↔
        ((some "/no/dir/out" : CStr) ≠ none ∧ false = true ∧ true = true)) ∧
      (((some "/no/dir/out" : CStr) = none ∨ false = false) →
        r.trace = [.fork 0,
          .open_ (some "/no/dir/out") (O_WRONLY ||| O_CREAT ||| O_TRUNC) 0o644 (-1),
          .perror "open failed", .exit EXIT_FAILURE] ∧
        r.outcome = .exited EXIT_FAILURE ∧ r.fds = []) ∧
      ((some "/no/dir/out" : CStr) ≠ none → false = true → true = false →
        r.trace = [.fork 0,
          .open_ (some "/no/dir/out") (O_WRONLY ||| O_CREAT ||| O_TRUNC) 0o644 (lowestFree []),
          .dup2 (lowestFree []) STDOUT_FILENO (-1), .perror "dup2 failed",
          .close (lowestFree []), .exit EXIT_FAILURE] ∧
        r.outcome = .exited EXIT_FAILURE ∧ getFd r.fds (lowestFree []) = none) ∧
      EXIT_FAILURE ≠ 0 ∧
      ∃ q, do_exec_redirect ⟨0, 7, true, 7, 256, false, true, []⟩ (some "/no/dir/out") 1
          [some "/bin/true"] = some q ∧
        q.outcome = .returned false :=
  redirect_setup_guards_execv ⟨0, 0, true, 0, 0, false, true, []⟩
    ⟨0, 7, true, 7, 256, false, true, []⟩ (some "/no/dir/out") 1 [some "/bin/true"]
    (by decide) rfl (by decide) (by decide) (by decide)

/-- Supporting fact for C8: whenever the descriptor returned by the open is not
standard output itself, the child of `do_exec_redirect` calls open, dup2, close
and execv in this order, and when `execv` is called descriptor 1 refers to the
file opened write-only, create, truncate, mode 0644, while the descriptor
returned by the open is closed. -/
theorem do_exec_redirect_stdout_redirected (os : OS) (p : String) (count : Int)
    (va : List CStr) (hdef : DefinedCall count va) (hchild : os.forkRet = 0)
    (hopen : os.openOk = true) (hdup : os.dup2Ok = true) (hfd : lowestFree os.fds ≠ 1) :
    ∃ r post, do_exec_redirect os (some p) count va = some r ∧
      r.trace = [.fork 0,
        .open_ (some p) (O_WRONLY ||| O_CREAT ||| O_TRUNC) 0o644 (lowestFree os.fds),
        .dup2 (lowestFree os.fds) STDOUT_FILENO 1, .close (lowestFree os.fds),
        .execv ((va.take count.toNat ++ [none]).headD none) (va.take count.toNat ++ [none])]
        ++ post ∧
      getFd r.fds STDOUT_FILENO = some ⟨p, O_WRONLY ||| O_CREAT ||| O_TRUNC, 0o644⟩ ∧
      getFd r.fds (lowestFree os.fds) = none := by
  refine ⟨_, _, do_exec_redirect_child_setup_ok os p count va hdef hchild hopen hdup, rfl,
    ?_, getFd_sys_close _ _⟩
  have hne : ¬ ((lowestFree os.fds : Int) = 1) := by omega
  have hne2 : STDOUT_FILENO ≠ (lowestFree os.fds : Int) := by
    unfold STDOUT_FILENO; omega
  simp only [sys_dup2_ok _ _ _ _ hdup, if_neg hne]
  rw [getFd_sys_close_ne _ _ _ hne2, getFd_setFd]
  simp [STDOUT_FILENO]

theorem do_exec_redirect_stdout_redirected_witness :
    ∃ r post, do_exec_redirect ⟨0, 0, true, 0, 0, true, true, []⟩ (some "/tmp/out.txt") 1
        [some "/bin/true"] = some r ∧
      r.trace = [.fork 0,
        .open_ (some "/tmp/out.txt") (O_WRONLY ||| O_CREAT ||| O_TRUNC) 0o644 (lowestFree []),
        .dup2 (lowestFree []) STDOUT_FILENO 1, .close (lowestFree []),
        .execv ((List.take (1 : Int).toNat [some "/bin/true"] ++ [none]).headD none)
          (List.take (1 : Int).toNat [some "/bin/true"] ++ [none])]
        ++ post ∧
      getFd r.fds STDOUT_FILENO = some ⟨"/tmp/out.txt", O_WRONLY ||| O_CREAT ||| O_TRUNC, 0o644⟩ ∧
      getFd r.fds (lowestFree []) = none :=
  do_exec_redirect_stdout_redirected ⟨0, 0, true, 0, 0, true, true, []⟩ "/tmp/out.txt" 1
    [some "/bin/true"] (by decide) rfl rfl rfl (by decide)

/-- C8 at the failing input: the caller has descriptors 0 and 2 open and
descriptor 1 closed. The open returns 1, `dup2(1, 1)` succeeds without doing
anything, `close(1)` closes standard output, and `execv` is then called while
descriptor 1 is closed. The flags are `O_WRONLY | O_CREAT | O_TRUNC` (577) and
the mode is 0644 (420). -/
theorem do_exec_redirect_closes_stdout :
    ∃ r, do_exec_redirect
        ⟨0, 0, true, 0, 0, true, true, [some ⟨"/dev/tty", 2, 0⟩, none, some ⟨"/dev/tty", 2, 0⟩]⟩
        (some "/tmp/out.txt") 2 [some "/bin/echo", some "hi"] = some r ∧
      r.trace = [.fork 0, .open_ (some "/tmp/out.txt") 577 420 1, .dup2 1 1 1, .close 1,
        .execv (some "/bin/echo") [some "/bin/echo", some "hi", none]] ∧
      r.outcome = .replaced ∧
      getFd r.fds STDOUT_FILENO = none := by
  exact ⟨_, rfl, by decide, by decide, by decide⟩


/-! ## Reaping and release of resources -/

/-- C9 fails as stated: with a successful spawn (pid 7) and a `waitpid` that
fails (returns -1, as when it is interrupted), `do_exec` and `do_exec_redirect`
return false to the caller although no successful wait on the child was made:
the child has not been reaped when the call returns. -/
theorem wait_failure_leaves_child_unreaped :
    ∃ r1 r2, do_exec ⟨0, 7, true, -1, 0, true, true, []⟩ 1 [some "/bin/true"] = some r1 ∧
      do_exec_redirect ⟨0, 7, true, -1, 0, true, true, []⟩ (some "/tmp/out.txt") 1
        [some "/bin/true"] = some r2 ∧
      r1.outcome = .returned false ∧ r2.outcome = .returned false ∧
      r1.trace = [.fork 7, .waitpid 7 0 (-1), .perror "waitpid failed"] ∧
      r2.trace = [.fork 7, .waitpid 7 0 (-1), .perror "waitpid failed"] ∧
      reapedBy 7 r1.trace = false ∧ reapedBy 7 r2.trace = false := by
  exact ⟨_, _, rfl, rfl, by decide, by decide, by decide, by decide, by decide, by decide⟩

theorem child_closes_opened (child : OS) (outputfile : CStr) (count : Int)
    (va : List CStr) (hdef : DefinedCall count va) (hchild : child.forkRet = 0) :
    ∃ rc, do_exec_redirect child outputfile count va = some rc ∧
      (∀ c ∈ rc.trace, c.isWait = false) ∧ (∀ b, rc.outcome ≠ .returned b) ∧
      ∀ path flags mode fd, Call.open_ path flags mode fd ∈ rc.trace → 0 ≤ fd →
        Call.close fd ∈ rc.trace ∧ getFd rc.fds fd = none := by
  cases outputfile with
  | none =>
    refine ⟨_, do_exec_redirect_child_open_failed child none count va hdef hchild (Or.inl rfl),
      ?_, ?_, ?_⟩
    · simp [Call.isWait]
    · simp
    · intro path flags mode fd hmem hfd
      simp at hmem
      omega
  | some p =>
    cases ho : child.openOk with
    | false =>
      refine ⟨_, do_exec_redirect_child_open_failed child (some p) count va hdef hchild
        (Or.inr ho), ?_, ?_, ?_⟩
      · simp [Call.isWait]
      · simp
      · intro path flags mode fd hmem hfd
        simp at hmem
        omega
    | true =>
      cases hd : child.dup2Ok with
      | false =>
        refine ⟨_, do_exec_redirect_child_dup2_failed child p count va hdef hchild ho hd,
          ?_, ?_, ?_⟩
        · simp [Call.isWait]
        · simp
        · intro path flags mode fd hmem hfd
          simp at hmem
          obtain ⟨_, _, _, rfl⟩ := hmem
          exact ⟨by simp, getFd_sys_close _ _⟩
      | true =>
        refine ⟨_, do_exec_redirect_child_setup_ok child p count va hdef hchild ho hd,
          ?_, ?_, ?_⟩
        · cases child.execvOk <;> simp [Call.isWait]
        · cases child.execvOk <;> simp
        · intro path flags mode fd hmem hfd
          have hfd2 : fd = (lowestFree child.fds : Int) := by
            cases hx : child.execvOk <;> simp [hx] at hmem <;> exact hmem.2.2.2
          subst hfd2
          exact ⟨by simp, getFd_sys_close _ _⟩

/-- C9 as amended: after a successful spawn, the parent side of `do_exec` and
of `do_exec_redirect` returns after exactly one `fork` and exactly one
`waitpid`, made on the process id that `fork` returned, and without opening or
duplicating any descriptor (its descriptor table is unchanged). When that
`waitpid` succeeds the child has been reaped by it; when it fails the call
returns false and the child has not been reaped. In the child of
`do_exec_redirect`, which never returns to the caller and never waits, the
descriptor returned by a successful open is closed before the child execs or
exits. -/
theorem parent_waits_own_child (os child : OS) (outputfile : CStr) (count : Int)
    (va : List CStr) (hdef : DefinedCall count va)
    (hp1 : os.forkRet ≠ -1) (hp0 : os.forkRet ≠ 0) (hchild : child.forkRet = 0) :
    ∃ r1 r2 rc b, do_exec os count va = some r1 ∧
      do_exec_redirect os outputfile count va = some r2 ∧
      do_exec_redirect child outputfile count va = some rc ∧
      r1.outcome = .returned b ∧ r2.outcome = .returned b ∧ r2.trace = r1.trace ∧
      r1.trace.filter Call.isFork = [.fork os.forkRet] ∧
      r1.trace.filter Call.isWait = [.waitpid os.forkRet 0 os.waitRet] ∧
      (∀ c ∈ r1.trace, c.isOpen = false ∧ c.isDup2 = false ∧ c.isExecv = false) ∧
      r1.fds = os.fds ∧ r2.fds = os.fds ∧
      (os.waitRet ≠ -1 → reapedBy os.forkRet r1.trace = true) ∧
      (os.waitRet = -1 → b = false ∧ reapedBy os.forkRet r1.trace = false) ∧
      (∀ c ∈ rc.trace, c.isWait = false) ∧ (∀ b2, rc.outcome ≠ .returned b2) ∧
      (∀ path flags mode fd, Call.open_ path flags mode fd ∈ rc.trace → 0 ≤ fd →
        Call.close fd ∈ rc.trace ∧ getFd rc.fds fd = none) := by
  obtain ⟨rc, hrc, hc1, hc2, hc3⟩ := child_closes_opened child outputfile count va hdef hchild
  refine ⟨_, _, rc, _, do_exec_parent os count va hdef hp1 hp0,
    do_exec_redirect_parent os outputfile count va hdef hp1 hp0, hrc, rfl, rfl, rfl,
    ?_, ?_, ?_, rfl, rfl, ?_, ?_, hc1, hc2, hc3⟩
  · by_cases hw : os.waitRet = -1 <;> simp [hw, Call.isFork]
  · by_cases hw : os.waitRet = -1 <;> simp [hw, Call.isWait]
  · by_cases hw : os.waitRet = -1 <;> simp [hw, Call.isOpen, Call.isDup2, Call.isExecv]
  · intro hw
    simp [hw, reapedBy, Call.reaps]
  · intro hw
    simp [hw, reapedBy, Call.reaps, specResult]

theorem parent_waits_own_child_witness :
    ∃ r1 r2 rc b, do_exec ⟨0, 7, true, 7, 0, true, true, []⟩ 1 [some "/bin/true"] = some r1 ∧
      do_exec_redirect ⟨0, 7, true, 7, 0, true, true, []⟩ (some "/tmp/out.txt") 1
        [some "/bin/true"] = some r2 ∧
      do_exec_redirect ⟨0, 0, true, 7, 0, true, true, []⟩ (some "/tmp/out.txt") 1
        [some "/bin/true"] = some rc ∧
      r1.outcome = .returned b ∧ r2.outcome = .returned b ∧ r2.trace = r1.trace ∧
      r1.trace.filter Call.isFork = [.fork 7] ∧
      r1.trace.filter Call.isWait = [.waitpid 7 0 7] ∧
      (∀ c ∈ r1.trace, c.isOpen = false ∧ c.isDup2 = false ∧ c.isExecv = false) ∧
      r1.fds = [] ∧ r2.fds = [] ∧
      ((7 : Int) ≠ -1 → reapedBy 7 r1.trace = true) ∧
      ((7 : Int) = -1 → b = false ∧ reapedBy 7 r1.trace = false) ∧
      (∀ c ∈ rc.trace, c.isWait = false) ∧ (∀ b2, rc.outcome ≠ .returned b2) ∧
      (∀ path flags mode fd, Call.open_ path flags mode fd ∈ rc.trace → 0 ≤ fd →
        Call.close fd ∈ rc.trace ∧ getFd rc.fds fd = none) :=
  parent_waits_own_child ⟨0, 7, true, 7, 0, true, true, []⟩ ⟨0, 0, true, 7, 0, true, true, []⟩
    (some "/tmp/out.txt") 1 [some "/bin/true"] (by decide) (by decide) (by decide) rfl


/-! ## The argument vector passed to execv -/

theorem execv_args_child (os : OS) (outputfile : CStr) (count : Int) (va : List CStr)
    (hdef : DefinedCall count va) (hchild : os.forkRet = 0) :
    ∃ r2, do_exec_redirect os outputfile count va = some r2 ∧
      (∀ path argv, Call.execv path argv ∈ r2.trace →
        path = (va.take count.toNat ++ [none]).headD none ∧
        argv = va.take count.toNat ++ [none]) ∧
      (outputfile ≠ none → os.openOk = true → os.dup2Ok = true →
        Call.execv ((va.take count.toNat ++ [none]).headD none)
          (va.take count.toNat ++ [none]) ∈ r2.trace) := by
  cases outputfile with
  | none =>
    refine ⟨_, do_exec_redirect_child_open_failed os none count va hdef hchild (Or.inl rfl),
      ?_, ?_⟩
    · intro path argv hmem; simp at hmem
    · intro h; exact absurd rfl h
  | some p =>
    cases ho : os.openOk with
    | false =>
      refine ⟨_, do_exec_redirect_child_open_failed os (some p) count va hdef hchild
        (Or.inr ho), ?_, ?_⟩
      · intro path argv hmem; simp at hmem
      · intro _ h; exact absurd h (by simp)
    | true =>
      cases hd : os.dup2Ok with
      | false =>
        refine ⟨_, do_exec_redirect_child_dup2_failed os p count va hdef hchild ho hd, ?_, ?_⟩
        · intro path argv hmem; simp at hmem
        · intro _ _ h; exact absurd h (by simp)
      | true =>
        refine ⟨_, do_exec_redirect_child_setup_ok os p count va hdef hchild ho hd, ?_, ?_⟩
        · intro path argv hmem
          cases hx : os.execvOk <;> simp [hx] at hmem <;> simpa using hmem
        · intro _ _ _; simp

/-- C10: for every count with 1 ≤ count (and count + 1 representable as an
`int`) and every list of count argument strings, the vector built by `do_exec`
and `do_exec_redirect` has exactly count + 1 entries, entry i is the i-th
argument for every i < count, and entry count is the null pointer. Every
`execv` call of either function receives entry 0 as the path and this whole
vector as argv; the child of `do_exec` makes that call, and so does the child
of `do_exec_redirect` once its open and dup2 succeeded. -/
theorem argument_vector (os : OS) (outputfile : CStr) (count : Int) (va : List CStr)
    (h1 : 1 ≤ count) (hmax : count < INT_MAX) (hlen : (va.length : Int) = count)
    (hchild : os.forkRet = 0) :
    ∃ command path r1 r2, buildCommand count va = some command ∧
      command = va ++ [none] ∧
      (command.length : Int) = count + 1 ∧
      (∀ (i : Nat) (hi : i < va.length), command[i]? = some va[i]) ∧
      command[count.toNat]? = some none ∧
      command[0]? = some path ∧ va[0]? = some path ∧
      do_exec os count va = some r1 ∧
      do_exec_redirect os outputfile count va = some r2 ∧
      Call.execv path command ∈ r1.trace ∧
      (∀ p a, Call.execv p a ∈ r1.trace → p = path ∧ a = command) ∧
      (∀ p a, Call.execv p a ∈ r2.trace → p = path ∧ a = command) ∧
      (outputfile ≠ none → os.openOk = true → os.dup2Ok = true →
        Call.execv path command ∈ r2.trace) := by
  have hdef : DefinedCall count va := ⟨by omega, hmax, by omega⟩
  have htake : va.take count.toNat = va := by
    apply List.take_of_length_le
    omega
  obtain ⟨r2, hr2, hall2, hex2⟩ := execv_args_child os outputfile count va hdef hchild
  have hr1 := do_exec_child os count va hdef hchild
  have hb := buildCommand_eq count va hdef
  rw [htake] at hb hr1 hall2 hex2
  cases va with
  | nil => simp at hlen; omega
  | cons a rest =>
    refine ⟨(a :: rest) ++ [none], a, _, r2, hb, rfl, ?_, ?_, ?_, by simp, by simp, hr1, hr2,
      ?_, ?_, ?_, ?_⟩
    · rw [← hlen]; simp
    · intro i hi
      rw [List.getElem?_append_left hi, List.getElem?_eq_getElem hi]
    · have hc : count.toNat = (a :: rest).length := by omega
      rw [hc, List.getElem?_append_right (le_refl _)]
      simp
    · cases os.execvOk <;> simp
    · intro p q hmem
      cases hx : os.execvOk <;> simp [hx] at hmem <;> exact hmem
    · intro p q hmem
      simpa using hall2 p q hmem
    · intro h1 h2 h3
      simpa using hex2 h1 h2 h3

theorem argument_vector_witness :
    ∃ command path r1 r2, buildCommand 2 [some "/bin/echo", some "hi"] = some command ∧
      command = [some "/bin/echo", some "hi"] ++ [none] ∧
      (command.length : Int) = 2 + 1 ∧
      (∀ (i : Nat) (hi : i < [some "/bin/echo", some "hi"].length),
        command[i]? = some ([some "/bin/echo", some "hi"].get ⟨i, hi⟩)) ∧
      command[(2 : Int).toNat]? = some none ∧
      command[0]? = some path ∧ [some "/bin/echo", some "hi"][0]? = some path ∧
      do_exec ⟨0, 0, true, 0, 0, true, true, []⟩ 2 [some "/bin/echo", some "hi"] = some r1 ∧
      do_exec_redirect ⟨0, 0, true, 0, 0, true, true, []⟩ (some "/tmp/out.txt") 2
        [some "/bin/echo", some "hi"] = some r2 ∧
      Call.execv path command ∈ r1.trace ∧
      (∀ p a, Call.execv p a ∈ r1.trace → p = path ∧ a = command) ∧
      (∀ p a, Call.execv p a ∈ r2.trace → p = path ∧ a = command) ∧
      ((some "/tmp/out.txt" : CStr) ≠ none → true = true → true = true →
        Call.execv path command ∈ r2.trace) :=
  argument_vector ⟨0, 0, true, 0, 0, true, true, []⟩ (some "/tmp/out.txt") 2
    [some "/bin/echo", some "hi"] (by decide) (by decide) (by decide) rfl

end Systemcalls
